import Mathlib

/-!
Shallow embedding of the traffic-flow counting engine of
`traffic_flow.py` (class `TrafficFlowAnalyzer`), together with proofs of
the claims of the specification about it.

Modelling conventions:
* Python ints are `Int`; Python floats that only ever hold exact
  frame-rate arithmetic are `ℚ`; `//` (floor division) is `Int.fdiv`.
* The Python dict `lane_counts` (insertion ordered, raising `KeyError` on
  a missing key) is an association list `List (Nat × Nat)`; the in-place
  increment `lane_counts[k] += 1` is `dictIncr`, returning `none` on a
  missing key (the `KeyError`).
* The Python set `counted_ids` is a duplicate-free-by-construction
  `List String` queried by membership.
* File-system state for `lane_config.json` is made explicit: a load reads
  a `StoredConfig` (absent file / unreadable or lanes-less JSON / parsed
  content) and reports the configuration it writes back, if any.
-/

namespace TrafficFlow

/-- A point `(x, y)` in pixel coordinates. -/
abbrev Point := Int × Int

/-- A lane region, given by its two corner points `(p1, p2)`
(`traffic_flow.py` lines 27-31). -/
abbrev LaneRegion := Point × Point

/-- The built-in default lane list from `TrafficFlowAnalyzer.__init__`
(lines 27-31). -/
def default_lanes : List LaneRegion :=
  [((100, 720), (500, 400)), ((550, 720), (900, 400)), ((950, 720), (1300, 400))]

/-- The guard of the lane loop (line 100):
`p1[0] <= cx <= p2[0] and p1[1] >= cy >= p2[1]`. -/
def laneHit (r : LaneRegion) (cx cy : Int) : Bool :=
  decide (r.1.1 ≤ cx) && decide (cx ≤ r.2.1) && decide (r.1.2 ≥ cy) && decide (cy ≥ r.2.2)

/-- `is_vehicle_in_lane` (lines 96-102): scan the lanes in configuration
order, numbering from 1 (`enumerate(self.lanes, start=1)`), and return the
first lane whose region contains the centroid, or `none`. -/
def is_vehicle_in_lane (lanes : List LaneRegion) (cx cy : Int) : Option Nat :=
  match lanes with
  | [] => none
  | r :: rest =>
    if laneHit r cx cy then some 1 else (is_vehicle_in_lane rest cx cy).map (· + 1)

/-- An `%H:%M:%S` wall-clock triple as produced by `time.strftime` on
line 146. -/
structure HMS where
  hh : Nat
  mm : Nat
  ss : Nat
  deriving DecidableEq, Repr

/-- `time.gmtime` on a non-negative number of seconds, projected to the
`%H:%M:%S` fields: floor to whole seconds has already happened, and the
clock wraps modulo 24 hours (86400 s). -/
def gmtimeHMS (secs : Int) : HMS :=
  ⟨(secs % 86400).toNat / 3600, ((secs % 86400).toNat % 3600) / 60, (secs % 86400).toNat % 60⟩

/-- The timestamp computation of line 146:
`time.strftime("%H:%M:%S", time.gmtime(frame_number / self.fps))`.
`time.gmtime` floors its float argument to whole seconds. -/
def frameTimestamp (frame_number : Nat) (fps : ℚ) : HMS :=
  gmtimeHMS ⌊(frame_number : ℚ) / fps⌋

/-- The seconds-value denoted by an `%H:%M:%S` string, for comparing the
recorded timestamp against the `frameIndex / fps` of the specification. -/
def HMS.toSeconds (t : HMS) : ℚ :=
  (t.hh : ℚ) * 3600 + (t.mm : ℚ) * 60 + (t.ss : ℚ)

/-- One row appended to `output_data` (lines 149-154). -/
structure OutputRecord where
  vehicleId : String
  lane : Nat
  frame : Nat
  timestamp : HMS
  deriving DecidableEq, Repr

/-- A per-frame tracked object as consumed by the loop at lines 130-137:
a track identity, the confirmation flag, and the integer `ltrb` box. -/
structure TrackedObject where
  track_id : String
  confirmed : Bool
  x1 : Int
  y1 : Int
  x2 : Int
  y2 : Int
  deriving DecidableEq, Repr

/-- Centroid of a tracked object (line 137):
`cx, cy = (x1 + x2) // 2, (y1 + y2) // 2` with Python floor division. -/
def centroid (t : TrackedObject) : Int × Int :=
  (Int.fdiv (t.x1 + t.x2) 2, Int.fdiv (t.y1 + t.y2) 2)

/-- The mutable state of `TrafficFlowAnalyzer` relevant to counting:
`lanes`, `target_width`/`target_height`, `lane_counts`, `counted_ids`,
`output_data`, and `fps` (set from the video by `process_video`). -/
structure TrafficFlowAnalyzer where
  lanes : List LaneRegion
  target_width : Int
  target_height : Int
  lane_counts : List (Nat × Nat)
  counted_ids : List String
  output_data : List OutputRecord
  fps : ℚ
  deriving DecidableEq, Repr

/-- The record written to `lane_config.json` by `save_lane_config`
(lines 68-77): lanes, a fixed description, and `[target_width, target_height]`. -/
structure SavedLaneConfig where
  lanes : List LaneRegion
  description : String
  target_frame_size : List Int
  deriving DecidableEq, Repr

/-- The state of `lane_config.json` as seen by `load_lane_config`
(lines 79-94): the file may be absent; it may fail before the `lanes`
assignment (unreadable file, invalid JSON, or no `"lanes"` key — all
caught by the `except`); or it parses with a `lanes` value and an optional
`target_frame_size` value (a JSON list of ints of any length). -/
inductive StoredConfig where
  | absent
  | unreadable
  | parsed (lanes : List LaneRegion) (target_frame_size : Option (List Int))
  deriving DecidableEq, Repr

/-- `save_lane_config` (lines 68-77): the configuration record written to
`lane_config.json`, built from the current state. -/
def save_lane_config (a : TrafficFlowAnalyzer) : SavedLaneConfig :=
  ⟨a.lanes, "Lane coordinates for traffic flow analysis", [a.target_width, a.target_height]⟩

/-- `load_lane_config` (lines 79-94). Returns the updated state and the
configuration written back to disk, if any. Absent file: keep the current
state and write the defaults out (`save_lane_config`). Unreadable file:
the exception is caught before `self.lanes` is assigned, state unchanged.
Parsed file: `self.lanes = config["lanes"]` happens first; then, if the
`target_frame_size` key is present, the two-way unpack succeeds only when
the list has exactly two entries — any other length raises, is caught, and
leaves the already-assigned lanes in place. -/
def load_lane_config (a : TrafficFlowAnalyzer) (file : StoredConfig) :
    TrafficFlowAnalyzer × Option SavedLaneConfig :=
  match file with
  | .absent => (a, some (save_lane_config a))
  | .unreadable => (a, none)
  | .parsed lanes target_frame_size =>
    match target_frame_size with
    | none => ({ a with lanes := lanes }, none)
    | some [w, h] => ({ a with lanes := lanes, target_width := w, target_height := h }, none)
    | some _ => ({ a with lanes := lanes }, none)

/-- The state set up by `TrafficFlowAnalyzer.__init__` (lines 12-45)
before the final `self.load_lane_config()` call: default lanes, target
size 960×540, counters `{1: 0, 2: 0, 3: 0}`, empty `counted_ids` and
`output_data`, `fps` 0. -/
def initAnalyzer : TrafficFlowAnalyzer :=
  { lanes := default_lanes
    target_width := 960
    target_height := 540
    lane_counts := [(1, 0), (2, 0), (3, 0)]
    counted_ids := []
    output_data := []
    fps := 0 }

/-- Session construction: `__init__` ending in `load_lane_config`
(line 45), against a given state of `lane_config.json`. -/
def mkAnalyzer (file : StoredConfig) : TrafficFlowAnalyzer × Option SavedLaneConfig :=
  load_lane_config initAnalyzer file

/-- `self.lane_counts[lane_num] += 1` (line 142) on the dict modelled as
an association list: `none` is the `KeyError` on a missing key. -/
def dictIncr (m : List (Nat × Nat)) (k : Nat) : Option (List (Nat × Nat)) :=
  match m with
  | [] => none
  | (k', v) :: rest =>
    if k' = k then some ((k', v + 1) :: rest) else (dictIncr rest k).map ((k', v) :: ·)

/-- The per-track body of `process_frame` (lines 130-154), the `observe`
operation of the engine: skip unconfirmed tracks; compute the integer
centroid; look up the lane; if the track is in some lane and not yet
counted, increment the counter of that lane, record the identity, and append
one output row carrying the formatted timestamp. `none` models the
`KeyError` crash when the matched lane has no counter. -/
def observe (a : TrafficFlowAnalyzer) (frame_number : Nat) (t : TrackedObject) :
    Option TrafficFlowAnalyzer :=
  if t.confirmed = false then some a
  else
    match is_vehicle_in_lane a.lanes (centroid t).1 (centroid t).2 with
    | none => some a
    | some lane_num =>
      if t.track_id ∈ a.counted_ids then some a
      else
        match dictIncr a.lane_counts lane_num with
        | none => none
        | some counts =>
          some { a with
                  lane_counts := counts
                  counted_ids := a.counted_ids ++ [t.track_id]
                  output_data := a.output_data ++
                    [⟨t.track_id, lane_num, frame_number, frameTimestamp frame_number a.fps⟩] }

/-- A whole sequence of observations, each tagged with its frame number,
processed in order as the per-frame loops of `process_video` /
`process_frame` do; a `KeyError` aborts the run. -/
def observeAll (a : TrafficFlowAnalyzer) : List (Nat × TrackedObject) →
    Option TrafficFlowAnalyzer
  | [] => some a
  | (f, t) :: rest =>
    match observe a f t with
    | none => none
    | some a' => observeAll a' rest

/-- The detection-scaling computation of `process_frame` (lines 120-123):
`scale_x = frame_width / target_width`, `scale_y = frame_height /
target_height`. A zero target dimension makes the Python division raise
`ZeroDivisionError`, modelled as `none`. -/
def scale_factors (a : TrafficFlowAnalyzer) (frame_width frame_height : Int) :
    Option (ℚ × ℚ) :=
  if a.target_width = 0 ∨ a.target_height = 0 then none
  else some ((frame_width : ℚ) / (a.target_width : ℚ), (frame_height : ℚ) / (a.target_height : ℚ))

/-- `save_results` (lines 251-269): serialize `output_data` row by row, in
list order, to the CSV (`pd.DataFrame(self.output_data).to_csv` preserves
row order), write the lane configuration back, and leave the analyzer
state unchanged. Returns ((serialized rows, written config), state after). -/
def save_results (a : TrafficFlowAnalyzer) :
    (List OutputRecord × SavedLaneConfig) × TrafficFlowAnalyzer :=
  ((a.output_data, save_lane_config a), a)

/-- Number of output rows attributed to a given identity. -/
def recCount (l : List OutputRecord) (id : String) : Nat :=
  l.countP (fun r => r.vehicleId == id)

/-- Fallback lane used only to state positional properties with `List.getD`
at indices that are always in range. -/
def dummyLane : LaneRegion := ((0, 0), (0, 0))

/-- The analyzer of the end-to-end scenario of the specification: a fresh
session (no persisted configuration) whose video runs at 30 fps. -/
def demoAnalyzer : TrafficFlowAnalyzer :=
  { (mkAnalyzer .absent).1 with fps := 30 }

/-- Frame 1 of the scenario: identity `A`, confirmed, centroid `(300, 500)`. -/
def demoTrack : TrackedObject := ⟨"A", true, 250, 450, 350, 550⟩

/-- Frame 2 of the scenario: identity `A` again, now in the region of lane 2
(centroid `(700, 500)`). -/
def demoTrack2 : TrackedObject := ⟨"A", true, 650, 450, 750, 550⟩

/-- Frame 3 of the scenario: identity `B`, unconfirmed. -/
def demoTrackB : TrackedObject := ⟨"B", false, 0, 0, 10, 10⟩

/-- The final state of the scenario: lane 1 counted once for `A`, one output
row recorded at frame 1. -/
def demoFinal : TrafficFlowAnalyzer :=
  { demoAnalyzer with
      lane_counts := [(1, 1), (2, 0), (3, 0)]
      counted_ids := ["A"]
      output_data := [⟨"A", 1, 1, frameTimestamp 1 30⟩] }

/-! ### Helper lemmas -/

theorem frameTimestamp_one_div_thirty : frameTimestamp 1 30 = ⟨0, 0, 0⟩ := by
  have h0 : ⌊((1 : Nat) : ℚ) / 30⌋ = 0 := by
    rw [Int.floor_eq_zero_iff]
    constructor <;> norm_num
  rw [frameTimestamp, h0]
  rfl

theorem ivil_some_bounds {lanes : List LaneRegion} {cx cy : Int} {n : Nat}
    (h : is_vehicle_in_lane lanes cx cy = some n) : 1 ≤ n ∧ n ≤ lanes.length := by
  induction lanes generalizing n with
  | nil => simp [is_vehicle_in_lane] at h
  | cons r rest ih =>
    rw [is_vehicle_in_lane] at h
    by_cases hr : laneHit r cx cy
    · rw [if_pos hr] at h
      cases h
      simp
    · rw [if_neg hr] at h
      rcases Option.map_eq_some'.mp h with ⟨k, hk, rfl⟩
      have := ih hk
      simp only [List.length_cons]
      omega

theorem ivil_first_iff (lanes : List LaneRegion) (cx cy : Int) (p : Nat) :
    is_vehicle_in_lane lanes cx cy = some (p + 1) ↔
      (p < lanes.length ∧ laneHit (lanes.getD p dummyLane) cx cy = true ∧
        ∀ m, m < p → laneHit (lanes.getD m dummyLane) cx cy = false) := by
  induction lanes generalizing p with
  | nil => simp [is_vehicle_in_lane]
  | cons r rest ih =>
    rw [is_vehicle_in_lane]
    by_cases hr : laneHit r cx cy
    · rw [if_pos hr]
      cases p with
      | zero => simp [hr]
      | succ q =>
        constructor
        · intro h
          cases h
        · rintro ⟨-, -, hall⟩
          have h0 := hall 0 (Nat.succ_pos q)
          rw [List.getD_cons_zero] at h0
          rw [hr] at h0
          cases h0
    · rw [if_neg hr]
      cases p with
      | zero =>
        constructor
        · intro h
          rcases Option.map_eq_some'.mp h with ⟨k, hk, hk1⟩
          have := (ivil_some_bounds hk).1
          omega
        · rintro ⟨-, h0, -⟩
          rw [List.getD_cons_zero] at h0
          rw [h0] at hr
          exact absurd rfl hr
      | succ q =>
        constructor
        · intro h
          rcases Option.map_eq_some'.mp h with ⟨k, hk, hk1⟩
          have hkq : k = q + 1 := by omega
          subst hkq
          rcases (ih q).mp hk with ⟨h1, h2, h3⟩
          refine ⟨by simpa using Nat.succ_lt_succ h1, by simpa using h2, ?_⟩
          intro m hm
          cases m with
          | zero => simpa using eq_false_of_ne_true hr
          | succ m' =>
            rw [List.getD_cons_succ]
            exact h3 m' (by omega)
        · rintro ⟨h1, h2, h3⟩
          have hrest : is_vehicle_in_lane rest cx cy = some (q + 1) := by
            refine (ih q).mpr ⟨by simpa using h1, by simpa using h2, ?_⟩
            intro m hm
            have := h3 (m + 1) (by omega)
            rw [List.getD_cons_succ] at this
            exact this
          rw [hrest]
          rfl

theorem observe_already_counted {a : TrafficFlowAnalyzer} {f : Nat} {t : TrackedObject}
    (hmem : t.track_id ∈ a.counted_ids) : observe a f t = some a := by
  cases hl : is_vehicle_in_lane a.lanes (centroid t).1 (centroid t).2 with
  | none => simp [observe, hl]
  | some lane => simp [observe, hl, hmem]

theorem observe_some_cases {a : TrafficFlowAnalyzer} {f : Nat} {t : TrackedObject}
    {a' : TrafficFlowAnalyzer} (h : observe a f t = some a') :
    a' = a ∨
    (t.track_id ∉ a.counted_ids ∧ ∃ lane counts,
      is_vehicle_in_lane a.lanes (centroid t).1 (centroid t).2 = some lane ∧
      dictIncr a.lane_counts lane = some counts ∧
      a' = { a with
              lane_counts := counts
              counted_ids := a.counted_ids ++ [t.track_id]
              output_data := a.output_data ++
                [⟨t.track_id, lane, f, frameTimestamp f a.fps⟩] }) := by
  by_cases hc : t.confirmed = false
  · rw [observe, if_pos hc] at h
    exact Or.inl (Option.some.inj h).symm
  · rw [observe, if_neg hc] at h
    cases hl : is_vehicle_in_lane a.lanes (centroid t).1 (centroid t).2 with
    | none =>
      rw [hl] at h
      exact Or.inl (Option.some.inj h).symm
    | some lane =>
      rw [hl] at h
      simp only [] at h
      by_cases hm : t.track_id ∈ a.counted_ids
      · rw [if_pos hm] at h
        exact Or.inl (Option.some.inj h).symm
      · rw [if_neg hm] at h
        cases hd : dictIncr a.lane_counts lane with
        | none =>
          rw [hd] at h
          cases h
        | some counts =>
          rw [hd] at h
          exact Or.inr ⟨hm, lane, counts, rfl, hd, (Option.some.inj h).symm⟩

theorem lookup_cons_self (k v : Nat) (rest : List (Nat × Nat)) :
    List.lookup k ((k, v) :: rest) = some v := by
  simp [List.lookup_cons]

theorem lookup_cons_ne {j k' : Nat} (v : Nat) (rest : List (Nat × Nat)) (h : j ≠ k') :
    List.lookup j ((k', v) :: rest) = List.lookup j rest := by
  have hb : (j == k') = false := by simpa using h
  simp [List.lookup_cons, hb]

theorem dictIncr_of_lookup : ∀ (m : List (Nat × Nat)) (k c : Nat),
    List.lookup k m = some c →
    ∃ m', dictIncr m k = some m' ∧ List.lookup k m' = some (c + 1) ∧
      ∀ j, j ≠ k → List.lookup j m' = List.lookup j m := by
  intro m
  induction m with
  | nil => intro k c h; simp [List.lookup] at h
  | cons head rest ih =>
    obtain ⟨k', v⟩ := head
    intro k c h
    by_cases hk : k' = k
    · subst hk
      rw [lookup_cons_self] at h
      obtain rfl : v = c := Option.some.inj h
      refine ⟨(k', v + 1) :: rest, ?_, ?_, ?_⟩
      · rw [dictIncr, if_pos rfl]
      · rw [lookup_cons_self]
      · intro j hj
        rw [lookup_cons_ne _ _ hj, lookup_cons_ne _ _ hj]
    · rw [lookup_cons_ne _ _ (fun hh => hk hh.symm)] at h
      rcases ih k c h with ⟨m', h1, h2, h3⟩
      refine ⟨(k', v) :: m', ?_, ?_, ?_⟩
      · rw [dictIncr, if_neg hk, h1]
        rfl
      · rw [lookup_cons_ne _ _ (fun hh => hk hh.symm), h2]
      · intro j hj
        by_cases hjk : j = k'
        · subst hjk
          rw [lookup_cons_self, lookup_cons_self]
        · rw [lookup_cons_ne _ _ hjk, lookup_cons_ne _ _ hjk]
          exact h3 j hj

theorem ivil_exists_of_hit (lanes : List LaneRegion) (cx cy : Int) (i : Nat)
    (hi : i < lanes.length) (hhit : laneHit (lanes.getD i dummyLane) cx cy = true) :
    ∃ p, p ≤ i ∧ is_vehicle_in_lane lanes cx cy = some (p + 1) := by
  induction lanes generalizing i with
  | nil => simp at hi
  | cons r rest ih =>
    by_cases hr : laneHit r cx cy
    · exact ⟨0, Nat.zero_le i, by rw [is_vehicle_in_lane, if_pos hr]⟩
    · cases i with
      | zero =>
        rw [List.getD_cons_zero] at hhit
        rw [hhit] at hr
        exact absurd rfl hr
      | succ j =>
        rw [List.getD_cons_succ] at hhit
        rcases ih j (by simpa using Nat.lt_of_succ_lt_succ hi) hhit with ⟨p, hp, heq⟩
        refine ⟨p + 1, by omega, ?_⟩
        rw [is_vehicle_in_lane, if_neg hr, heq]
        rfl

theorem frameTimestamp_29_div_30 : frameTimestamp 29 30 = ⟨0, 0, 0⟩ := by
  have h0 : ⌊((29 : Nat) : ℚ) / 30⌋ = 0 := by
    rw [Int.floor_eq_zero_iff]
    constructor <;> norm_num
  rw [frameTimestamp, h0]
  rfl

theorem observe_step_bound (id : String) {a a' : TrafficFlowAnalyzer} {f : Nat} {t : TrackedObject}
    (h : observe a f t = some a') :
    recCount a'.output_data id + (if id ∈ a'.counted_ids then 0 else 1)
      ≤ recCount a.output_data id + (if id ∈ a.counted_ids then 0 else 1)
    ∧ a'.counted_ids.count id ≤ max (a.counted_ids.count id) 1 := by
  rcases observe_some_cases h with rfl | ⟨hnot, lane, counts, hl, hd, rfl⟩
  · exact ⟨le_rfl, le_max_left _ _⟩
  · by_cases hid : id = t.track_id
    · subst hid
      have hz : a.counted_ids.count t.track_id = 0 := List.count_eq_zero.mpr hnot
      refine ⟨?_, ?_⟩
      · simp [recCount, List.countP_append, hnot]
      · simp [List.count_append, hz]
    · have hne : (t.track_id == id) = false := by simpa using fun hh : t.track_id = id => hid hh.symm
      refine ⟨?_, ?_⟩
      · simp [recCount, List.countP_append, List.mem_append, hne, hid]
      · have h1 : List.count id [t.track_id] = 0 := by
          rw [List.count_eq_zero]
          simpa using fun hh : id = t.track_id => hid hh
        simp [List.count_append, h1]

theorem observeAll_bound (id : String) (obs : List (Nat × TrackedObject)) :
    ∀ (a a' : TrafficFlowAnalyzer), observeAll a obs = some a' →
    recCount a'.output_data id + (if id ∈ a'.counted_ids then 0 else 1)
      ≤ recCount a.output_data id + (if id ∈ a.counted_ids then 0 else 1)
    ∧ a'.counted_ids.count id ≤ max (a.counted_ids.count id) 1 := by
  induction obs with
  | nil =>
    intro a a' h
    rw [observeAll] at h
    obtain rfl := Option.some.inj h
    exact ⟨le_rfl, le_max_left _ _⟩
  | cons ft rest ih =>
    obtain ⟨f, t⟩ := ft
    intro a a' h
    rw [observeAll] at h
    cases hstep : observe a f t with
    | none =>
      rw [hstep] at h
      cases h
    | some a1 =>
      rw [hstep] at h
      simp only [] at h
      have h1 := observe_step_bound id hstep
      have h2 := ih a1 a' h
      refine ⟨h2.1.trans h1.1, ?_⟩
      have hx := h1.2
      have hy := h2.2
      omega

theorem observeAll_output_extends (obs : List (Nat × TrackedObject)) :
    ∀ (a a' : TrafficFlowAnalyzer), observeAll a obs = some a' →
    ∃ l, a'.output_data = a.output_data ++ l := by
  induction obs with
  | nil =>
    intro a a' h
    rw [observeAll] at h
    obtain rfl := Option.some.inj h
    exact ⟨[], by simp⟩
  | cons ft rest ih =>
    obtain ⟨f, t⟩ := ft
    intro a a' h
    rw [observeAll] at h
    cases hstep : observe a f t with
    | none =>
      rw [hstep] at h
      cases h
    | some a1 =>
      rw [hstep] at h
      simp only [] at h
      rcases ih a1 a' h with ⟨l2, hl2⟩
      rcases observe_some_cases hstep with rfl | ⟨-, lane, counts, -, -, rfl⟩
      · exact ⟨l2, hl2⟩
      · exact ⟨[⟨t.track_id, lane, f, frameTimestamp f a.fps⟩] ++ l2, by simpa using hl2⟩

/-! ### The claims -/

/-- C1. At-most-once counting: over any successfully processed sequence of
observations, the number of output rows attributed to a given identity
grows by at most one (and not at all when the identity is already in
`counted_ids`); the identity appears in `counted_ids` with multiplicity at
most one; and once the identity is in `counted_ids`, an observation of it
at any frame, in any lane, returns the state entirely unchanged —
`lane_counts`, `counted_ids` and `output_data` included. Each row appended
to `output_data` coincides with exactly one lane-counter increment
(`observe` performs them together), so the row count measures the
increments attributable to the identity. -/
theorem at_most_once_counting (a : TrafficFlowAnalyzer) (id : String)
    (obs : List (Nat × TrackedObject)) (a' : TrafficFlowAnalyzer)
    (h : observeAll a obs = some a') :
    recCount a'.output_data id ≤ recCount a.output_data id + (if id ∈ a.counted_ids then 0 else 1)
    ∧ a'.counted_ids.count id ≤ max (a.counted_ids.count id) 1
    ∧ (∀ (f : Nat) (t : TrackedObject), t.track_id = id → id ∈ a.counted_ids →
        observe a f t = some a) := by
  have h1 := observeAll_bound id obs a a' h
  refine ⟨le_trans (Nat.le_add_right _ _) h1.1, h1.2, ?_⟩
  intro f t ht hmem
  exact observe_already_counted (by rw [ht]; exact hmem)

/-- Witness for C1, at the scenario state in which `A` is already counted:
one further observation of `A` leaves the row count for `A` unchanged. -/
theorem at_most_once_counting_witness :
    recCount demoFinal.output_data "A" ≤
      recCount demoFinal.output_data "A" + (if "A" ∈ demoFinal.counted_ids then 0 else 1) :=
  (at_most_once_counting demoFinal "A" [(2, demoTrack2)] demoFinal rfl).1

/-- C2. First-counting transition: a confirmed track whose centroid lies in
some lane, whose identity is not yet counted, and whose lane has a counter
holding `c`, is processed by incrementing exactly that counter to `c + 1`
(all other counters untouched), appending the identity to `counted_ids`,
and appending exactly one output row with that identity, lane and frame
number. Moreover the three-frame scenario of the specification — frame 1:
`A` confirmed at centroid `(300, 500)`; frame 2: `A` in the region of
lane 2; frame 3: `B` unconfirmed — ends with counts `{1: 1, 2: 0, 3: 0}`
and exactly one recorded row, `(A, lane 1, frame 1)`. -/
theorem first_counting_transition :
    (∀ (a : TrafficFlowAnalyzer) (f : Nat) (t : TrackedObject) (lane c : Nat),
      t.confirmed = true →
      is_vehicle_in_lane a.lanes (centroid t).1 (centroid t).2 = some lane →
      t.track_id ∉ a.counted_ids →
      List.lookup lane a.lane_counts = some c →
      observe a f t ≠ none ∧
      ∀ a', observe a f t = some a' →
        List.lookup lane a'.lane_counts = some (c + 1) ∧
        (∀ j, j ≠ lane → List.lookup j a'.lane_counts = List.lookup j a.lane_counts) ∧
        a'.counted_ids = a.counted_ids ++ [t.track_id] ∧
        a'.output_data = a.output_data ++ [⟨t.track_id, lane, f, frameTimestamp f a.fps⟩])
    ∧ observeAll demoAnalyzer [(1, demoTrack), (2, demoTrack2), (3, demoTrackB)] = some demoFinal
    ∧ demoFinal.lane_counts = [(1, 1), (2, 0), (3, 0)]
    ∧ demoFinal.output_data = [⟨"A", 1, 1, ⟨0, 0, 0⟩⟩] := by
  refine ⟨?_, rfl, rfl, by simp [demoFinal, frameTimestamp_one_div_thirty]⟩
  intro a f t lane c hconf hl hnot hlk
  rcases dictIncr_of_lookup a.lane_counts lane c hlk with ⟨m', hd, h2, h3⟩
  have heq : observe a f t = some
      { a with
          lane_counts := m'
          counted_ids := a.counted_ids ++ [t.track_id]
          output_data := a.output_data ++ [⟨t.track_id, lane, f, frameTimestamp f a.fps⟩] } := by
    rw [observe, if_neg (by simp [hconf]), hl]
    simp only []
    rw [if_neg hnot, hd]
  refine ⟨by rw [heq]; exact fun hh => Option.noConfusion hh, ?_⟩
  intro a' h'
  rw [heq] at h'
  obtain rfl := Option.some.inj h'
  exact ⟨h2, h3, rfl, rfl⟩

/-- Witness for C2: the first scenario observation takes the counter of
lane 1 from 0 to 1. -/
theorem first_counting_transition_witness :
    List.lookup 1 demoFinal.lane_counts = some (0 + 1) :=
  ((first_counting_transition.1 demoAnalyzer 1 demoTrack 1 0 rfl (by decide) (by decide)
    rfl).2 demoFinal rfl).1

/-- C3. Lane containment test: for a single lane region with corners
`p1 = (x1, y1)` and `p2 = (x2, y2)`, a centroid `(cx, cy)` is in the lane
iff `x1 <= cx <= x2` and `y1 >= cy >= y2`, all bounds inclusive; and for
the region `p1 = (100, 720)`, `p2 = (500, 400)`, the centroid `(300, 500)`
is inside while `(600, 500)` and `(300, 750)` are outside. -/
theorem lane_containment (x1 y1 x2 y2 cx cy : Int) :
    (is_vehicle_in_lane [((x1, y1), (x2, y2))] cx cy = some 1 ↔
      (x1 ≤ cx ∧ cx ≤ x2 ∧ y1 ≥ cy ∧ cy ≥ y2))
    ∧ is_vehicle_in_lane [((100, 720), (500, 400))] 300 500 = some 1
    ∧ is_vehicle_in_lane [((100, 720), (500, 400))] 600 500 = none
    ∧ is_vehicle_in_lane [((100, 720), (500, 400))] 300 750 = none := by
  refine ⟨?_, by decide, by decide, by decide⟩
  constructor
  · intro hsome
    by_cases hcond : laneHit ((x1, y1), (x2, y2)) cx cy
    · simpa [laneHit, and_assoc] using hcond
    · rw [is_vehicle_in_lane, if_neg hcond] at hsome
      simp [is_vehicle_in_lane] at hsome
  · intro hprops
    have hcond : laneHit ((x1, y1), (x2, y2)) cx cy = true := by
      simp [laneHit, and_assoc]
      exact hprops
    rw [is_vehicle_in_lane, if_pos hcond]

/-- Witness for C3, taking the containment criterion from inside to
membership at the concrete region and centroid of the specification. -/
theorem lane_containment_witness :
    is_vehicle_in_lane [((100, 720), (500, 400))] 300 500 = some 1 :=
  (lane_containment 100 720 500 400 300 500).1.mpr (by decide)

/-- C4. First-match-wins ordering: `is_vehicle_in_lane` answers
`some (p + 1)` exactly when position `p` (0-based) holds the first region,
in configuration order, containing the centroid — every earlier region
misses; consequently whenever any region at position `i` contains the
centroid, the returned lane position is at most `i`, so a centroid lying
in two or more regions is assigned to the lane with the lowest configured
index. -/
theorem first_match_wins (lanes : List LaneRegion) (cx cy : Int) :
    (∀ p : Nat, is_vehicle_in_lane lanes cx cy = some (p + 1) ↔
      (p < lanes.length ∧ laneHit (lanes.getD p dummyLane) cx cy = true ∧
        ∀ m, m < p → laneHit (lanes.getD m dummyLane) cx cy = false))
    ∧ (∀ i, i < lanes.length → laneHit (lanes.getD i dummyLane) cx cy = true →
      ∃ p, p ≤ i ∧ is_vehicle_in_lane lanes cx cy = some (p + 1)) :=
  ⟨ivil_first_iff lanes cx cy, ivil_exists_of_hit lanes cx cy⟩

/-- Witness for C4: two identical overlapping regions both contain
`(5, 5)`; the centroid is credited to lane 1, the lower configured
index. -/
theorem first_match_wins_witness :
    is_vehicle_in_lane [((0, 10), (10, 0)), ((0, 10), (10, 0))] 5 5 = some (0 + 1) :=
  ((first_match_wins [((0, 10), (10, 0)), ((0, 10), (10, 0))] 5 5).1 0).mpr
    ⟨by decide, by decide, fun m hm => absurd hm (Nat.not_lt_zero m)⟩

/-- C5 counterexample. The claim says that after construction, including a
configuration load, `lane_counts` has exactly one zero counter per
configured lane id `1..N`. It is false: `__init__` hard-codes
`{1: 0, 2: 0, 3: 0}` and `load_lane_config` never touches it, so loading a
persisted configuration with four lanes leaves a lane id (4) that the
membership test can return but that is not a key of `lane_counts`; the
observe-time increment for a vehicle in lane 4 then hits a missing key
(`KeyError`, modelled as `none`) rather than an initialized counter. -/
theorem counter_per_lane_cex :
    (mkAnalyzer (.parsed (default_lanes ++ [((1400, 720), (1500, 400))]) none)).1.lanes.length = 4
    ∧ (mkAnalyzer (.parsed (default_lanes ++ [((1400, 720), (1500, 400))]) none)).1.lane_counts
        = [(1, 0), (2, 0), (3, 0)]
    ∧ is_vehicle_in_lane
        (mkAnalyzer (.parsed (default_lanes ++ [((1400, 720), (1500, 400))]) none)).1.lanes
        1450 500 = some 4
    ∧ List.lookup 4
        (mkAnalyzer (.parsed (default_lanes ++ [((1400, 720), (1500, 400))]) none)).1.lane_counts
        = none
    ∧ observe (mkAnalyzer (.parsed (default_lanes ++ [((1400, 720), (1500, 400))]) none)).1 1
        ⟨"A", true, 1400, 450, 1500, 550⟩ = none := by
  refine ⟨by decide, by decide, by decide, by decide, by decide⟩

/-- C5 as amended. Construction always initializes `lane_counts` to
exactly `{1: 0, 2: 0, 3: 0}`, independently of the loaded configuration;
therefore the one-counter-per-configured-lane invariant holds exactly for
sessions whose loaded configuration has three lanes (as the built-in
default does), in which case every lane id the membership test can return
is a key of `lane_counts` holding 0. -/
theorem counters_fixed_at_construction (file : StoredConfig) :
    (mkAnalyzer file).1.lane_counts = [(1, 0), (2, 0), (3, 0)]
    ∧ ((mkAnalyzer file).1.lanes.length = 3 →
      ∀ (cx cy : Int) (n : Nat),
        is_vehicle_in_lane (mkAnalyzer file).1.lanes cx cy = some n →
        List.lookup n (mkAnalyzer file).1.lane_counts = some 0) := by
  have hc : (mkAnalyzer file).1.lane_counts = [(1, 0), (2, 0), (3, 0)] := by
    rcases file with _ | _ | ⟨lanes, t⟩
    · rfl
    · rfl
    · rcases t with _ | ts
      · rfl
      · rcases ts with _ | ⟨w, ts⟩
        · rfl
        · rcases ts with _ | ⟨h2, ts⟩
          · rfl
          · rcases ts with _ | ⟨x, ts⟩
            · rfl
            · rfl
  refine ⟨hc, fun hlen cx cy n hn => ?_⟩
  obtain ⟨hb1, hb2⟩ := ivil_some_bounds hn
  rw [hlen] at hb2
  rw [hc]
  interval_cases n
  · rfl
  · rfl
  · rfl

/-- Witness for the amended C5: the default three-lane session maps the
lane found at centroid `(300, 500)` to an initialized zero counter. -/
theorem counters_fixed_at_construction_witness :
    List.lookup 1 (mkAnalyzer .absent).1.lane_counts = some 0 :=
  (counters_fixed_at_construction .absent).2 (by decide) 300 500 1 (by decide)

/-- C6 counterexample. The claim says every absent-or-malformed load ends
with exactly the built-in default (3 lanes, 960x540), never a partial mix.
It is false: a file that parses and has a `lanes` key assigns
`self.lanes = config["lanes"]` before validating `target_frame_size`, so a
malformed `target_frame_size` (here `[960]`, which fails the two-way
unpack) leaves the lanes of the file combined with the default reference
size — a partial mix, and not 3 default lanes. -/
theorem default_fallback_cex :
    (mkAnalyzer (.parsed [((0, 0), (10, 10))] (some [960]))).1.lanes = [((0, 0), (10, 10))]
    ∧ (mkAnalyzer (.parsed [((0, 0), (10, 10))] (some [960]))).1.lanes ≠ default_lanes
    ∧ (mkAnalyzer (.parsed [((0, 0), (10, 10))] (some [960]))).1.target_width = 960
    ∧ (mkAnalyzer (.parsed [((0, 0), (10, 10))] (some [960]))).1.target_height = 540 := by
  refine ⟨by decide, by decide, by decide, by decide⟩

/-- C6 as amended. A load from an absent file, or from a file that fails
before the `lanes` assignment (unreadable, invalid JSON, or no `lanes`
key), leaves the full built-in default in place: 3 default lanes and
reference size 960x540. But when the file parses with a `lanes` key and
then fails on a malformed `target_frame_size`, the lanes of the file are
kept with the default reference size — the fallback is partial, not the
full default substitution. In all cases the load returns normally. -/
theorem default_fallback_amended :
    ((mkAnalyzer .absent).1.lanes = default_lanes ∧
      (mkAnalyzer .absent).1.target_width = 960 ∧ (mkAnalyzer .absent).1.target_height = 540)
    ∧ ((mkAnalyzer .unreadable).1.lanes = default_lanes ∧
      (mkAnalyzer .unreadable).1.target_width = 960 ∧
      (mkAnalyzer .unreadable).1.target_height = 540)
    ∧ (∀ (lanes : List LaneRegion) (ts : List Int), ts.length ≠ 2 →
      (mkAnalyzer (.parsed lanes (some ts))).1.lanes = lanes ∧
      (mkAnalyzer (.parsed lanes (some ts))).1.target_width = 960 ∧
      (mkAnalyzer (.parsed lanes (some ts))).1.target_height = 540) := by
  refine ⟨⟨rfl, rfl, rfl⟩, ⟨rfl, rfl, rfl⟩, fun lanes ts hts => ?_⟩
  rcases ts with _ | ⟨w, ts⟩
  · exact ⟨rfl, rfl, rfl⟩
  · rcases ts with _ | ⟨h2, ts⟩
    · exact ⟨rfl, rfl, rfl⟩
    · rcases ts with _ | ⟨x, ts⟩
      · simp at hts
      · exact ⟨rfl, rfl, rfl⟩

/-- Witness for the amended C6, at a three-element `target_frame_size`. -/
theorem default_fallback_amended_witness :
    (mkAnalyzer (.parsed [((0, 0), (10, 10))] (some [960, 540, 0]))).1.target_width = 960 :=
  (default_fallback_amended.2.2 [((0, 0), (10, 10))] [960, 540, 0] (by decide)).2.1

/-- C7 counterexample. The claim says every recorded event carries a
timestamp equal to `frameIndex / fps`. It is false: the code stores
`time.strftime("%H:%M:%S", time.gmtime(frame_number / fps))`, the
`HH:MM:SS` rendering of `frameIndex / fps` floored to whole seconds
(modulo 24 hours). At frame 1 with fps 30 the recorded timestamp denotes
0 seconds, not `1/30`; and frames 1 and 29 record identical timestamps
although `1/30` and `29/30` differ, so no reading of the stored value can
equal `frameIndex / fps`. -/
theorem timestamp_not_frame_over_fps_cex :
    (observe demoAnalyzer 1 demoTrack).map (fun s => s.output_data.map OutputRecord.timestamp)
      = some [⟨0, 0, 0⟩]
    ∧ HMS.toSeconds ⟨0, 0, 0⟩ ≠ (1 : ℚ) / 30
    ∧ frameTimestamp 1 30 = frameTimestamp 29 30
    ∧ (1 : ℚ) / 30 ≠ (29 : ℚ) / 30 := by
  refine ⟨?_, ?_, ?_, ?_⟩
  · rw [show observe demoAnalyzer 1 demoTrack = some demoFinal from rfl]
    simp [demoFinal, frameTimestamp_one_div_thirty]
  · norm_num [HMS.toSeconds]
  · rw [frameTimestamp_one_div_thirty, frameTimestamp_29_div_30]
  · norm_num

/-- C7 as amended. Every output row appended by `observe` carries as its
timestamp the `%H:%M:%S` wall-clock rendering of
`floor(frameIndex / fps)` seconds (wrapping modulo 24 hours), i.e.
`gmtimeHMS` applied to the floor of `frameIndex / fps` — a value derived
from, but not equal to, `frameIndex / fps`. -/
theorem timestamp_formatted_amended (a : TrafficFlowAnalyzer) (f : Nat) (t : TrackedObject)
    (a' : TrafficFlowAnalyzer) (h : observe a f t = some a') :
    a'.output_data.map OutputRecord.timestamp = a.output_data.map OutputRecord.timestamp ∨
    a'.output_data.map OutputRecord.timestamp =
      a.output_data.map OutputRecord.timestamp ++ [gmtimeHMS ⌊(f : ℚ) / a.fps⌋] := by
  rcases observe_some_cases h with rfl | ⟨-, lane, counts, -, -, rfl⟩
  · exact Or.inl rfl
  · right
    simp [frameTimestamp]

/-- Witness for the amended C7, at the scenario observation at frame 1. -/
theorem timestamp_formatted_amended_witness :
    demoFinal.output_data.map OutputRecord.timestamp =
      demoAnalyzer.output_data.map OutputRecord.timestamp ∨
    demoFinal.output_data.map OutputRecord.timestamp =
      demoAnalyzer.output_data.map OutputRecord.timestamp ++
        [gmtimeHMS ⌊((1 : Nat) : ℚ) / demoAnalyzer.fps⌋] :=
  timestamp_formatted_amended demoAnalyzer 1 demoTrack demoFinal rfl

/-- C8 counterexample. The claim says a zero reference dimension makes the
session fail at construction, before any frame is processed. It is false:
construction performs no reference-size validation — loading a persisted
`target_frame_size` of `[0, 540]` completes normally and the constructed
session carries `target_width = 0`; the zero dimension is only reached by
the per-frame detection-scaling division, which has no value (a
`ZeroDivisionError` at frame-processing time, not a construction-time
error). -/
theorem zero_dim_accepted_cex :
    (mkAnalyzer (.parsed default_lanes (some [0, 540]))).1.target_width = 0
    ∧ scale_factors (mkAnalyzer (.parsed default_lanes (some [0, 540]))).1 1280 720 = none := by
  refine ⟨by decide, by decide⟩

/-- C8 as amended. Construction accepts any loaded reference size,
including a zero dimension, storing it unvalidated; during frame
processing the scaling computation fails (has no result) precisely when a
dimension is zero, and otherwise yields the two per-axis ratios — so the
failure is at observe/processing time, loud rather than silent, but not at
construction. -/
theorem zero_dim_amended (lanes : List LaneRegion) (w h fw fh : Int) :
    (mkAnalyzer (.parsed lanes (some [w, h]))).1.target_width = w
    ∧ (mkAnalyzer (.parsed lanes (some [w, h]))).1.target_height = h
    ∧ ((w = 0 ∨ h = 0) → scale_factors (mkAnalyzer (.parsed lanes (some [w, h]))).1 fw fh = none)
    ∧ (w ≠ 0 → h ≠ 0 → scale_factors (mkAnalyzer (.parsed lanes (some [w, h]))).1 fw fh =
        some ((fw : ℚ) / (w : ℚ), (fh : ℚ) / (h : ℚ))) := by
  refine ⟨rfl, rfl, fun hz => ?_, fun hw hh => ?_⟩
  · rw [scale_factors, if_pos]
    exact hz
  · rw [scale_factors, if_neg]
    · rfl
    · push_neg
      exact ⟨hw, hh⟩

/-- Witness for the amended C8: a zero loaded width reaches the
frame-processing scale computation, which has no result. -/
theorem zero_dim_amended_witness :
    scale_factors (mkAnalyzer (.parsed default_lanes (some [0, 540]))).1 1920 1080 = none :=
  (zero_dim_amended default_lanes 0 540 1920 1080).2.2.1 (Or.inl rfl)

/-- C9. Idempotent, order-preserving flush: `save_results` serializes
exactly `output_data`, row for row in insertion order; flushing the state
returned by a flush serializes the same record list again (no
duplication, no loss); and over any successfully processed observation
sequence the rows present before are still a prefix of the rows after, in
their original order — counting only appends. -/
theorem flush_idempotent_ordered (a : TrafficFlowAnalyzer) (obs : List (Nat × TrackedObject))
    (a' : TrafficFlowAnalyzer) (h : observeAll a obs = some a') :
    (save_results a').1.1 = a'.output_data
    ∧ (save_results ((save_results a').2)).1.1 = (save_results a').1.1
    ∧ a'.output_data.take a.output_data.length = a.output_data := by
  refine ⟨rfl, rfl, ?_⟩
  rcases observeAll_output_extends obs a a' h with ⟨l, hl⟩
  rw [hl, List.take_left]

/-- Witness for C9 at the end-to-end scenario state. -/
theorem flush_idempotent_ordered_witness :
    (save_results demoFinal).1.1 = demoFinal.output_data
    ∧ (save_results ((save_results demoFinal).2)).1.1 = (save_results demoFinal).1.1
    ∧ demoFinal.output_data.take demoAnalyzer.output_data.length = demoAnalyzer.output_data :=
  flush_idempotent_ordered demoAnalyzer [(1, demoTrack), (2, demoTrack2), (3, demoTrackB)]
    demoFinal rfl

/-- C10. Loading with no persisted configuration file does not only keep
the in-memory defaults: it writes the full default configuration — the 3
default lanes, the fixed description text, and reference size
`[960, 540]` — back to `lane_config.json`; a subsequent load in the same
directory therefore takes the parsed-file path, reading back exactly the
default configuration and writing nothing further. -/
theorem absent_config_written :
    mkAnalyzer .absent =
      (initAnalyzer,
        some ⟨default_lanes, "Lane coordinates for traffic flow analysis", [960, 540]⟩)
    ∧ load_lane_config initAnalyzer (.parsed default_lanes (some [960, 540]))
        = (initAnalyzer, none) :=
  ⟨rfl, rfl⟩

end TrafficFlow
